import Mathlib

/-!
Verification of the Order Reconciliation and SKU Resolution Engine of
`process_shopify_exports.py`, shallowly embedded in Lean 4.

The embedding follows the source line by line:
* a raw CSV row read by pandas becomes `Row`, with `Option` cells (`none` models a
  NaN cell produced by `pd.read_csv` for a blank field);
* the exclusion classification loop becomes `computeExcluded`;
* the already-imported check becomes `computeAlreadyImported`;
* column selection, `fillna('')` and the forward fill become `toWorkRow` / `ffill`;
* the interactive resolution sweep becomes `sweep` (operator decisions supplied
  by an oracle `Nat -> Decision`, one entry per interactive prompt);
* the second-chance pass becomes `secondChance`;
* the write-back, final filters, order batch and contact batch become `finish`;
* the whole script run becomes `run`, returning the terminal `Outcome` together
  with the ordered list of file writes the script performed.
-/

namespace OrderFlow

/-- A raw row of orders_export.csv as loaded by pandas; `none` models a NaN cell. -/
structure Row where
  name : Option String
  billingName : Option String
  paidAt : Option String
  qty : Option String
  price : Option String
  sku : Option String
  itemName : Option String
  refunded : Option Rat
  financialStatus : Option String
  fulfilledAt : Option String
  email : Option String
  street : Option String
  city : Option String
  zip : Option String
  province : Option String
  country : Option String
  phone : Option String
deriving Repr, DecidableEq

/-- A row with every cell blank (NaN); concrete inputs override fields of it. -/
def Row.blank : Row :=
  ⟨none, none, none, none, none, none, none, none, none, none, none, none, none,
   none, none, none, none⟩

/-- The immutable Odoo-side snapshot loaded at the start of the run:
existing sale.order names, valid product SKUs, existing contact names. -/
structure OdooState where
  orderNames : List String
  skus : List String
  contactNames : List String
deriving Repr, DecidableEq

/-- Deduplication keeping the first occurrence, as pandas `Series.unique`. -/
def dedupFirstAux : List String → List String → List String
  | [], _ => []
  | a :: rest, seen =>
    if a ∈ seen then dedupFirstAux rest seen
    else a :: dedupFirstAux rest (a :: seen)

/-- Deduplicate a list of strings keeping first occurrences in order. -/
def dedupFirst (l : List String) : List String := dedupFirstAux l []

/-- The Name cell of a row if it is non-NaN and non-empty, as in
`df_in['Name'].fillna('').replace('', pd.NA).dropna()`. -/
def extractName (r : Row) : Option String :=
  match r.name with
  | some n => if n = "" then none else some n
  | none => none

/-- Distinct non-blank order names in first-occurrence order
(`df_in['Name'].fillna('').replace('', pd.NA).dropna().unique()`). -/
def uniqueNames (rows : List Row) : List String :=
  dedupFirst (rows.filterMap extractName)

/-- Lowercasing as python `str.lower()` on strings, one character at a time. -/
def toLowerStr (s : String) : String := ⟨s.data.map Char.toLower⟩

/-- Replace all non-overlapping occurrences of `pat` left to right, over
character lists; `skip` counts pattern characters still to swallow after a
match. An empty pattern never matches (the source patterns are non-empty). -/
def replaceAux (pat rep : List Char) : List Char → Nat → List Char
  | [], _ => []
  | _ :: rest, skip + 1 => replaceAux pat rep rest skip
  | c :: rest, 0 =>
    if pat.isPrefixOf (c :: rest) ∧ 1 ≤ pat.length then
      rep ++ replaceAux pat rep rest (pat.length - 1)
    else c :: replaceAux pat rep rest 0

/-- Replacement of every occurrence of a substring, as python `str.replace`. -/
def strReplace (s pat rep : String) : String :=
  ⟨replaceAux pat.data rep.data s.data 0⟩

/-- Exclusion reasons of the classification loop. -/
inductive ExclReason
  | refunded
  | notPaid
  | fulfilled
deriving Repr, DecidableEq

/-- The first row of an order (`df_in[df_in['Name'] == order_name].iloc[0]`);
a NaN Name never equals the order name. -/
def firstRowOf (rows : List Row) (n : String) : Option Row :=
  rows.find? (fun r => r.name == some n)

/-- The refunded test `pd.notna(ra) and ra != '' and float(ra) > 0`. -/
def isRefunded (r : Row) : Bool :=
  match r.refunded with
  | some x => decide (0 < x)
  | none => false

/-- The fulfillment test `pd.notna(fa) and fa != ''`. -/
def isFulfilled (r : Row) : Bool :=
  match r.fulfilledAt with
  | some s => decide (s ≠ "")
  | none => false

/-- Classify one order name against its first row. A NaN Financial Status cell makes
`financial_status.lower()` raise an uncaught AttributeError, modelled as `.error ()`. -/
def classifyOrder (rows : List Row) (n : String) : Except Unit (Option ExclReason) :=
  match firstRowOf rows n with
  | none => .ok none
  | some first =>
    if isRefunded first then .ok (some ExclReason.refunded)
    else
      match first.financialStatus with
      | none => .error ()
      | some fs =>
        if toLowerStr fs ≠ "paid" then .ok (some ExclReason.notPaid)
        else if isFulfilled first then .ok (some ExclReason.fulfilled)
        else .ok none

/-- Run the classification loop over a list of order names, collecting the
excluded orders with their reasons, stopping at the first crash. -/
def classifyList (rows : List Row) : List String → Except Unit (List (String × ExclReason))
  | [] => .ok []
  | n :: rest =>
    match classifyOrder rows n with
    | .error e => .error e
    | .ok c =>
      match classifyList rows rest with
      | .error e => .error e
      | .ok tail =>
        .ok (match c with
             | some reason => (n, reason) :: tail
             | none => tail)

/-- The exclusion classification loop over all distinct order names of the input. -/
def computeExcluded (rows : List Row) : Except Unit (List (String × ExclReason)) :=
  classifyList rows (uniqueNames rows)

/-- The test `df_in['Name'].isin(names)`: a NaN Name cell is never in the set. -/
def rowNameIn (names : List String) (r : Row) : Bool :=
  match r.name with
  | some n => names.contains n
  | none => false

/-- Drop the rows whose (raw) Name cell is one of the given order names
(`df_in[~df_in['Name'].isin(names)]`). -/
def filterOutOrders (rows : List Row) (names : List String) : List Row :=
  rows.filter (fun r => !(rowNameIn names r))

/-- Orders of the (already exclusion-filtered) input that are present in Odoo. -/
def computeAlreadyImported (rows : List Row) (odooOrders : List String) : List String :=
  (uniqueNames rows).filter (fun n => odooOrders.contains n)

/-- The working frame row after column selection and `fillna('')`. -/
structure WorkRow where
  name : String
  billingName : String
  paidAt : String
  qty : String
  price : String
  sku : String
  itemName : String
deriving Repr, DecidableEq

/-- Replace a NaN cell by the empty string, as `fillna('')`. -/
def orDefault (o : Option String) : String := o.getD ""

/-- Column selection plus `fillna('')` producing the working frame. -/
def toWorkRow (r : Row) : WorkRow :=
  ⟨orDefault r.name, orDefault r.billingName, orDefault r.paidAt, orDefault r.qty,
   orDefault r.price, orDefault r.sku, orDefault r.itemName⟩

/-- Forward fill of Name, Billing Name and Paid at with running accumulators
(the most recent non-blank value seen so far, initially blank). -/
def ffillAux : List WorkRow → String → String → String → List WorkRow
  | [], _, _, _ => []
  | r :: rest, pn, pb, pp =>
    let n := if r.name = "" then pn else r.name
    let b := if r.billingName = "" then pb else r.billingName
    let p := if r.paidAt = "" then pp else r.paidAt
    { r with name := n, billingName := b, paidAt := p } :: ffillAux rest n b p

/-- The forward fill `df[c].replace('', pd.NA).ffill().fillna('')` applied to the
three header columns. -/
def ffill (rows : List WorkRow) : List WorkRow := ffillAux rows "" "" ""

/-- The operator's eventual outcome at one interactive SKU prompt. -/
inductive Decision
  | select (sku : String)
  | skip
  | abort
deriving Repr, DecidableEq

/-- One record of the sku_corrections audit log. -/
structure Correction where
  order : String
  productName : String
  shopifySku : String
  corrected : String
  action : String
deriving Repr, DecidableEq

/-- The running resolution state: the session SKU cache (`sku_cache`), the
correction log (`sku_corrections`), and the number of interactive prompts used. -/
structure ResState where
  cache : List (String × Option String)
  corrections : List Correction
  prompts : Nat
deriving Repr, DecidableEq

/-- Lookup in the session cache (newest binding first). -/
def cacheLookup (cache : List (String × Option String)) (k : String) : Option (Option String) :=
  (cache.find? (fun e => e.1 == k)).map (fun e => e.2)

/-- The text recorded for the original SKU (`sku if sku else '(missing)'`). -/
def skuOrMissing (s : String) : String := if s = "" then "(missing)" else s

/-- Embeds interactive_sku_lookup: auto-skip mode caches a skip marker without
prompting; otherwise the oracle supplies the operator's decision at the current
prompt index. Selection caches the SKU and logs a Correction; skip caches the skip
marker; abort raises (UserAbortException). -/
def skuLookup (autoSkip : Bool) (dec : Nat → Decision) (itemName orderName currentSku : String)
    (st : ResState) : Except Unit (Option String × ResState) :=
  if autoSkip then
    .ok (none, { st with cache := (itemName, none) :: st.cache })
  else
    match dec st.prompts with
    | Decision.skip =>
      .ok (none, { st with cache := (itemName, none) :: st.cache, prompts := st.prompts + 1 })
    | Decision.abort => .error ()
    | Decision.select s =>
      .ok (some s,
        { cache := (itemName, some s) :: st.cache
          corrections := st.corrections ++
            [⟨orderName, itemName, skuOrMissing currentSku, s, "Update SKU in Shopify"⟩]
          prompts := st.prompts + 1 })

/-- The test `sku != '' and sku in odoo_skus`. -/
def validSku (skus : List String) (r : WorkRow) : Bool :=
  r.sku != "" && skus.contains r.sku

/-- A line enters resolution when it has a line item name and its SKU is missing
or unknown to the catalog. -/
def needy (skus : List String) (r : WorkRow) : Bool :=
  !(r.itemName == "") && !(validSku skus r)

/-- The SKU a line receives from a cache value: the cached reference, or the
skip sentinel when the cache records a skip. -/
def applyVal : Option String → String
  | some c => c
  | none => "__SKIP__"

/-- One iteration of the first resolution sweep over one working row. -/
def sweepRow (skus : List String) (autoSkip : Bool) (dec : Nat → Decision)
    (r : WorkRow) (st : ResState) : Except Unit (WorkRow × ResState) :=
  if r.itemName == "" then .ok (r, st)
  else if validSku skus r then .ok (r, st)
  else
    match cacheLookup st.cache r.itemName with
    | some (some c) =>
      .ok ({ r with sku := c },
        { st with corrections := st.corrections ++
            [⟨r.name, r.itemName, skuOrMissing r.sku, c, "Update SKU in Shopify"⟩] })
    | some none =>
      .ok ({ r with sku := "__SKIP__" },
        { st with corrections := st.corrections ++
            [⟨r.name, r.itemName, skuOrMissing r.sku, "(skipped)",
              "SKIPPED - Order line will not be imported"⟩] })
    | none =>
      match skuLookup autoSkip dec r.itemName r.name r.sku st with
      | .error e => .error e
      | .ok (some c, st') => .ok ({ r with sku := c }, st')
      | .ok (none, st') =>
        .ok ({ r with sku := "__SKIP__" },
          { st' with corrections := st'.corrections ++
              [⟨r.name, r.itemName, skuOrMissing r.sku, "(skipped)",
                "SKIPPED - Order line will not be imported"⟩] })

/-- The first interactive resolution sweep over the working frame. -/
def sweep (skus : List String) (autoSkip : Bool) (dec : Nat → Decision) :
    List WorkRow → ResState → Except Unit (List WorkRow × ResState)
  | [], st => .ok ([], st)
  | r :: rest, st =>
    match sweepRow skus autoSkip dec r st with
    | .error e => .error e
    | .ok (r', st') =>
      match sweep skus autoSkip dec rest st' with
      | .error e => .error e
      | .ok (rest', st'') => .ok (r' :: rest', st'')

/-- The second-chance loop body over the distinct skipped product names. The
sample row for the order name is looked up in the snapshot of skipped rows, as in
the source; an accepted retry is mass-applied to every still-skipped row sharing
the product name. `k` indexes the retry prompts. -/
def scGo (autoSkip : Bool) (retry : Nat → Bool) (dec : Nat → Decision)
    (snapshot : List WorkRow) :
    List String → List WorkRow → ResState → Nat → Except Unit (List WorkRow × ResState)
  | [], rows, st, _ => .ok (rows, st)
  | p :: rest, rows, st, k =>
    if retry k then
      match snapshot.find? (fun r => r.itemName == p) with
      | none => scGo autoSkip retry dec snapshot rest rows st (k + 1)
      | some sample =>
        match skuLookup autoSkip dec p sample.name "" st with
        | .error e => .error e
        | .ok (some c, st') =>
          scGo autoSkip retry dec snapshot rest
            (rows.map (fun r =>
              if r.itemName == p && r.sku == "__SKIP__" then { r with sku := c } else r))
            st' (k + 1)
        | .ok (none, st') => scGo autoSkip retry dec snapshot rest rows st' (k + 1)
    else scGo autoSkip retry dec snapshot rest rows st (k + 1)

/-- The second-chance pass: runs only when some line was skipped and auto-skip
mode is off; asks once per distinct skipped product name. -/
def secondChance (autoSkip : Bool) (retry : Nat → Bool) (dec : Nat → Decision)
    (rows : List WorkRow) (st : ResState) : Except Unit (List WorkRow × ResState) :=
  let skipped := rows.filter (fun r => r.sku == "__SKIP__")
  if 0 < skipped.length && !autoSkip then
    scGo autoSkip retry dec skipped (dedupFirst (skipped.map (fun r => r.itemName))) rows st 0
  else .ok (rows, st)

/-- A row of 02_orders_upload.csv. -/
structure FinalRow where
  orderRef : String
  customer : String
  invoiceAddr : String
  deliveryAddr : String
  orderDate : String
  qty : String
  price : String
  product : String
deriving Repr, DecidableEq

/-- A row of 01_contacts_upload.csv. -/
structure ContactRow where
  email : String
  name : String
  street : String
  city : String
  zip : String
  state : String
  country : String
  phone : String
  isCompany : String
  addrType : String
deriving Repr, DecidableEq

/-- The construction of one df_final row from one working row. -/
def toFinalRow (r : WorkRow) : FinalRow :=
  ⟨r.name, r.billingName, "Shopify", r.billingName, r.paidAt, r.qty, r.price, r.sku⟩

/-- Blank the header fields of every row whose Order Reference duplicates an
earlier row's (`duplicated(subset=['Order Reference'], keep='first')`). -/
def blankDupHeaders : List FinalRow → List String → List FinalRow
  | [], _ => []
  | r :: rest, seen =>
    if r.orderRef ∈ seen then
      { r with orderRef := "", customer := "", invoiceAddr := "", deliveryAddr := "",
               orderDate := "" } :: blankDupHeaders rest seen
    else r :: blankDupHeaders rest (r.orderRef :: seen)

/-- Strip the timezone suffixes from the order date. -/
def cleanDate (r : FinalRow) : FinalRow :=
  { r with orderDate := strReplace (strReplace r.orderDate " -0500" "") " -0400" "" }

/-- Column selection, `fillna('')` and renaming for one contact row. -/
def toContactRow (r : Row) : ContactRow :=
  ⟨orDefault r.email, orDefault r.billingName, orDefault r.street, orDefault r.city,
   orDefault r.zip, orDefault r.province, orDefault r.country, orDefault r.phone,
   "0", "Contact"⟩

/-- `drop_duplicates(subset=['Name'], keep='first')` over contact rows. -/
def dedupByName : List ContactRow → List String → List ContactRow
  | [], _ => []
  | c :: rest, seen =>
    if c.name ∈ seen then dedupByName rest seen
    else c :: dedupByName rest (c.name :: seen)

/-- The contact batch: select billing columns, drop blank names, deduplicate by
name within the batch, then drop names already present in Odoo. -/
def buildContacts (rows : List Row) (existing : List String) : List ContactRow :=
  (dedupByName ((rows.map toContactRow).filter (fun c => c.name != "")) []).filter
    (fun c => !(existing.contains c.name))

/-- One file write the script performs, with its full content. -/
inductive Write
  | ordersExport (rows : List Row)
  | failedOrders (orderNames : List String)
  | ordersUpload (rows : List FinalRow)
  | contactsUpload (rows : List ContactRow)
  | skuCorrections (rows : List Correction)
deriving Repr, DecidableEq

/-- The terminal state of one script run. -/
inductive Outcome
  | aborted
  | crashed
  | emptyBatch
  | completed
deriving Repr, DecidableEq

/-- The process exit status at each terminal state: the abort handler, the
empty-batch branch and an uncaught exception all exit with status 1; a completed
run falls off the end of the script with status 0. -/
def exitCode : Outcome → Nat
  | Outcome.aborted => 1
  | Outcome.crashed => 1
  | Outcome.emptyBatch => 1
  | Outcome.completed => 0

/-- The rows still carrying the skip sentinel after the second-chance pass
(`still_skipped = df[df['Lineitem sku'] == '__SKIP__']`). -/
def stillSkippedOf (work2 : List WorkRow) : List WorkRow :=
  work2.filter (fun r => r.sku == "__SKIP__")

/-- The distinct (forward-filled) order names of the still-skipped rows. -/
def skippedNamesOf (work2 : List WorkRow) : List String :=
  dedupFirst ((stillSkippedOf work2).map (fun r => r.name))

/-- Removal of the unresolved orders from the working frame
(`df = df[~df['Name'].isin(skipped_order_names)]`), run only when some row is
still skipped. -/
def work3Of (work2 : List WorkRow) : List WorkRow :=
  if 0 < (stillSkippedOf work2).length then
    work2.filter (fun r => !((skippedNamesOf work2).contains r.name))
  else work2

/-- The writes of the unresolved branch: orders_export.csv is overwritten with
the df_in rows whose raw Name cell is one of the unresolved order names, and
failed_orders.txt lists those names. -/
def writes1Of (input2 : List Row) (work2 : List WorkRow) : List Write :=
  if 0 < (stillSkippedOf work2).length then
    [Write.ordersExport (input2.filter (fun r => rowNameIn (skippedNamesOf work2) r)),
     Write.failedOrders (skippedNamesOf work2)]
  else []

/-- The final per-row skip filter (`df = df[df['Lineitem sku'] != '__SKIP__']`). -/
def work4Of (work2 : List WorkRow) : List WorkRow :=
  (work3Of work2).filter (fun r => r.sku != "__SKIP__")

/-- Construction of df_final: one output row per working row, header fields
blanked on duplicated Order References, timezone suffixes stripped. -/
def dfFinalOf (work4 : List WorkRow) : List FinalRow :=
  (blankDupHeaders (work4.map toFinalRow) []).map cleanDate

/-- The tail of the run after both resolution phases: the unresolved-order
write-back and removal, the final skip filter, the empty-batch exit, and the
construction of the order and contact batches. `input2` is df_in after the
exclusion and already-imported filtering (the frame the write-back and the
contact batch read). -/
def finish (input2 : List Row) (odoo : OdooState) (work2 : List WorkRow)
    (st2 : ResState) : Outcome × List Write :=
  if (work4Of work2).length = 0 then (Outcome.emptyBatch, writes1Of input2 work2)
  else
    (Outcome.completed,
     if 0 < st2.corrections.length then
       writes1Of input2 work2 ++
         [Write.ordersUpload (dfFinalOf (work4Of work2)),
          Write.contactsUpload (buildContacts input2 odoo.contactNames),
          Write.skuCorrections st2.corrections]
     else
       writes1Of input2 work2 ++
         [Write.ordersUpload (dfFinalOf (work4Of work2)),
          Write.contactsUpload (buildContacts input2 odoo.contactNames)])

/-- The run-time configuration and operator behaviour: the auto-skip flag, the
decision at each interactive SKU prompt, and the answer at each second-chance
retry prompt. -/
structure Oracles where
  autoSkip : Bool
  dec : Nat → Decision
  retry : Nat → Bool

/-- df_in after the exclusion filter and then the already-imported filter; both
filters test the raw (un-forward-filled) Name cell. -/
def postFilter (input : List Row) (odoo : OdooState)
    (excl : List (String × ExclReason)) : List Row :=
  filterOutOrders (filterOutOrders input (excl.map Prod.fst))
    (computeAlreadyImported (filterOutOrders input (excl.map Prod.fst)) odoo.orderNames)

/-- One whole run of the script: classification, filtering, forward fill, the
resolution sweep, the second-chance pass, then `finish`. Returns the terminal
outcome with every file write performed, in order. -/
def run (input : List Row) (odoo : OdooState) (o : Oracles) : Outcome × List Write :=
  match computeExcluded input with
  | .error _ => (Outcome.crashed, [])
  | .ok excl =>
    match sweep odoo.skus o.autoSkip o.dec
        (ffill ((postFilter input odoo excl).map toWorkRow)) ⟨[], [], 0⟩ with
    | .error _ => (Outcome.aborted, [])
    | .ok (work1, st1) =>
      match secondChance o.autoSkip o.retry o.dec work1 st1 with
      | .error _ => (Outcome.aborted, [])
      | .ok (work2, st2) => finish (postFilter input odoo excl) odoo work2 st2

/-! Concrete inputs used to evaluate the pipeline at specific scenarios. -/

/-- A paid single-line order A2 with a valid SKU, customer Carol. -/
def c1r1 : Row := { Row.blank with
  name := some "A2"
  billingName := some "Carol"
  paidAt := some "2024-01-02 10:00:00 -0500"
  qty := some "1"
  price := some "10"
  sku := some "X"
  itemName := some "Widget"
  financialStatus := some "paid" }

/-- The header row of refunded order A1 (refunded amount 5). -/
def c1r2 : Row := { Row.blank with
  name := some "A1"
  billingName := some "Dave"
  paidAt := some "2024-01-03 11:00:00 -0500"
  qty := some "2"
  price := some "20"
  sku := some "X"
  itemName := some "Gadget"
  refunded := some 5
  financialStatus := some "paid" }

/-- The continuation row of order A1: blank Name cell, quantity 7. -/
def c1r3 : Row := { Row.blank with
  qty := some "7"
  price := some "30"
  sku := some "X"
  itemName := some "Gizmo" }

/-- An Odoo snapshot with no prior orders or contacts and one valid SKU X. -/
def c1odoo : OdooState := ⟨[], ["X"], []⟩

/-- Interactive mode where the operator aborts at any prompt that is reached. -/
def oAbort : Oracles := ⟨false, fun _ => Decision.abort, fun _ => false⟩

/-- Auto-skip mode (SHOPIFY_IMPORT_AUTO_SKIP=1): no prompts ever. -/
def oAuto : Oracles := ⟨true, fun _ => Decision.abort, fun _ => false⟩

/-- A refunded order R1 that also already exists in the Odoo order set. -/
def c2r1 : Row := { Row.blank with
  name := some "R1"
  billingName := some "Erin"
  qty := some "1"
  price := some "5"
  sku := some "X"
  itemName := some "Thing"
  refunded := some 5
  financialStatus := some "paid" }

/-- The header row of order B1: valid SKU X. -/
def c3r1 : Row := { Row.blank with
  name := some "B1"
  billingName := some "Frank"
  paidAt := some "2024-02-01 09:00:00 -0500"
  qty := some "1"
  price := some "10"
  sku := some "X"
  itemName := some "Known"
  financialStatus := some "paid" }

/-- The continuation row of order B1: blank Name cell, unknown SKU. -/
def c3r2 : Row := { Row.blank with
  qty := some "3"
  price := some "15"
  sku := some ""
  itemName := some "Unknown" }

/-- A paid order D1 with a missing SKU, driving one interactive prompt. -/
def c4r1 : Row := { Row.blank with
  name := some "D1"
  billingName := some "Gail"
  qty := some "1"
  price := some "10"
  sku := some ""
  itemName := some "Mystery"
  financialStatus := some "paid" }

/-- The header row of order O1: missing SKU, product description D. -/
def c5r1 : Row := { Row.blank with
  name := some "O1"
  billingName := some "Hank"
  paidAt := some "2024-03-01 08:00:00 -0400"
  qty := some "1"
  price := some "10"
  sku := some ""
  itemName := some "D"
  financialStatus := some "paid" }

/-- The continuation row of order O1: same product description D, missing SKU. -/
def c5r2 : Row := { Row.blank with
  qty := some "2"
  price := some "10"
  sku := some ""
  itemName := some "D" }

/-- Operator behaviour: skip at the first prompt, accept SKU S9 at the second
(the second-chance retry), and answer yes to every retry question. -/
def c5oracle : Oracles :=
  ⟨false, fun k => if k = 0 then Decision.skip else Decision.select "S9", fun _ => true⟩

/-- A continuation row that precedes any header row in the whole file. -/
def c6r1 : Row := { Row.blank with
  qty := some "4"
  price := some "9"
  sku := some "X"
  itemName := some "Orphan" }

/-- An order F1 whose first row has a NaN Financial Status cell. -/
def c7r1 : Row := { Row.blank with
  name := some "F1"
  billingName := some "Ivy"
  qty := some "1"
  price := some "10"
  sku := some "X"
  itemName := some "Item" }

/-- A fully resolvable paid order O2, customer Alice. -/
def c8r1 : Row := { Row.blank with
  name := some "O2"
  billingName := some "Alice"
  paidAt := some "2024-04-01 07:00:00 -0500"
  qty := some "1"
  price := some "10"
  sku := some "X"
  itemName := some "Good"
  financialStatus := some "paid" }

/-- A paid order O3 with an unknown SKU, customer Bob. -/
def c8r2 : Row := { Row.blank with
  name := some "O3"
  billingName := some "Bob"
  paidAt := some "2024-04-02 07:00:00 -0500"
  qty := some "1"
  price := some "10"
  sku := some ""
  itemName := some "Bad"
  financialStatus := some "paid" }

/-- An order P1 whose payment status is pending, so it is excluded. -/
def c9r1 : Row := { Row.blank with
  name := some "P1"
  billingName := some "Jan"
  qty := some "1"
  price := some "10"
  sku := some "X"
  itemName := some "Item"
  financialStatus := some "pending" }

/-- A working row of order O1 with description D and missing SKU (line one). -/
def w5a : WorkRow := ⟨"O1", "Hank", "t", "1", "10", "", "D"⟩

/-- A working row of order O1 with description D and missing SKU (line two). -/
def w5b : WorkRow := ⟨"O1", "Hank", "t", "2", "10", "", "D"⟩

/-- The resolution state after auto-skipping both lines of description D. -/
def st5 : ResState :=
  ⟨[("D", none)],
   [⟨"O1", "D", "(missing)", "(skipped)", "SKIPPED - Order line will not be imported"⟩,
    ⟨"O1", "D", "(missing)", "(skipped)", "SKIPPED - Order line will not be imported"⟩],
   0⟩

/-- Recognizes the three import artifacts (order batch, contact batch,
correction log), as opposed to the retry write-back files. -/
def isImportWrite : Write → Bool
  | Write.ordersUpload _ => true
  | Write.contactsUpload _ => true
  | Write.skuCorrections _ => true
  | Write.ordersExport _ => false
  | Write.failedOrders _ => false

/-- The most recent non-blank value in a list, starting from a default: the
specification of one forward-filled cell. -/
def lastNB (d : String) : List String → String
  | [] => d
  | s :: rest => lastNB (if s = "" then d else s) rest

/-! Helper lemmas about the list combinators of the embedding. -/

theorem mem_dedupFirstAux (l seen : List String) (n : String) :
    n ∈ dedupFirstAux l seen ↔ n ∈ l ∧ n ∉ seen := by
  induction l generalizing seen with
  | nil => simp [dedupFirstAux]
  | cons a rest ih =>
    unfold dedupFirstAux
    by_cases ha : a ∈ seen
    · rw [if_pos ha, ih]
      constructor
      · rintro ⟨h1, h2⟩
        exact ⟨List.mem_cons_of_mem a h1, h2⟩
      · rintro ⟨h1, h2⟩
        rcases List.mem_cons.mp h1 with h1 | h1
        · exact absurd (h1 ▸ ha) h2
        · exact ⟨h1, h2⟩
    · rw [if_neg ha]
      simp only [List.mem_cons, ih]
      constructor
      · rintro (rfl | ⟨h1, h2⟩)
        · exact ⟨Or.inl rfl, ha⟩
        · exact ⟨Or.inr h1, fun hs => h2 (Or.inr hs)⟩
      · rintro ⟨h1 | h1, h2⟩
        · exact Or.inl h1
        · by_cases hna : n = a
          · exact Or.inl hna
          · exact Or.inr ⟨h1, fun hs => by
              rcases hs with hs | hs
              · exact hna hs
              · exact h2 hs⟩

theorem nodup_dedupFirstAux (l seen : List String) : (dedupFirstAux l seen).Nodup := by
  induction l generalizing seen with
  | nil => simp [dedupFirstAux]
  | cons a rest ih =>
    unfold dedupFirstAux
    by_cases ha : a ∈ seen
    · rw [if_pos ha]; exact ih seen
    · rw [if_neg ha]
      refine List.Nodup.cons ?_ (ih (a :: seen))
      intro hmem
      exact ((mem_dedupFirstAux rest (a :: seen) a).mp hmem).2 (List.mem_cons_self a seen)

theorem mem_dedupFirst (l : List String) (n : String) : n ∈ dedupFirst l ↔ n ∈ l := by
  unfold dedupFirst
  rw [mem_dedupFirstAux]
  simp

/-! Lemmas about the classification phase, for the priority analysis. -/

theorem classifyOrder_refunded (rows : List Row) (n : String) (r : Row)
    (hfr : firstRowOf rows n = some r) (href : isRefunded r = true) :
    classifyOrder rows n = Except.ok (some ExclReason.refunded) := by
  unfold classifyOrder
  rw [hfr]
  simp [href]

theorem classifyList_refunded_mem (rows : List Row) (names : List String)
    (excl : List (String × ExclReason)) (n : String) (r : Row)
    (h : classifyList rows names = Except.ok excl) (hn : n ∈ names)
    (hfr : firstRowOf rows n = some r) (href : isRefunded r = true) :
    (n, ExclReason.refunded) ∈ excl := by
  induction names generalizing excl with
  | nil => cases hn
  | cons m rest ih =>
    unfold classifyList at h
    cases hcm : classifyOrder rows m with
    | error e => rw [hcm] at h; cases h
    | ok c =>
      rw [hcm] at h
      cases hrest : classifyList rows rest with
      | error e => rw [hrest] at h; cases h
      | ok tail =>
        rw [hrest] at h
        simp only at h
        rcases List.mem_cons.mp hn with rfl | hn
        · have hc := classifyOrder_refunded rows n r hfr href
          rw [hcm] at hc
          injection hc with hc
          subst hc
          simp only at h
          injection h with h
          subst h
          exact List.mem_cons_self _ _
        · have htail := ih tail hrest hn
          cases c with
          | some reason =>
            simp only at h
            injection h with h
            subst h
            exact List.mem_cons_of_mem _ htail
          | none =>
            simp only at h
            injection h with h
            subst h
            exact htail

theorem mem_uniqueNames_iff (rows : List Row) (n : String) :
    n ∈ uniqueNames rows ↔ ∃ r ∈ rows, r.name = some n ∧ n ≠ "" := by
  unfold uniqueNames
  rw [mem_dedupFirst, List.mem_filterMap]
  constructor
  · rintro ⟨r, hr, hex⟩
    refine ⟨r, hr, ?_⟩
    cases hname : r.name with
    | none => simp [extractName, hname] at hex
    | some m =>
      simp only [extractName, hname] at hex
      by_cases hm : m = ""
      · rw [if_pos hm] at hex; cases hex
      · rw [if_neg hm] at hex
        injection hex with hex
        subst hex
        exact ⟨rfl, hm⟩
  · rintro ⟨r, hr, hname, hne⟩
    refine ⟨r, hr, ?_⟩
    simp only [extractName, hname, if_neg hne]

theorem mem_uniqueNames_filterOut (rows : List Row) (names : List String) (n : String)
    (h : n ∈ uniqueNames (filterOutOrders rows names)) : n ∉ names := by
  obtain ⟨r, hr, hname, -⟩ := (mem_uniqueNames_iff _ n).mp h
  unfold filterOutOrders at hr
  rw [List.mem_filter] at hr
  obtain ⟨-, hkeep⟩ := hr
  unfold rowNameIn at hkeep
  rw [hname] at hkeep
  intro hmem
  rw [Bool.not_eq_true', ← Bool.not_eq_true] at hkeep
  exact hkeep (List.elem_iff.mpr hmem)

theorem mem_computeAlreadyImported (rows : List Row) (od : List String) (n : String)
    (h : n ∈ computeAlreadyImported rows od) : n ∈ uniqueNames rows := by
  unfold computeAlreadyImported at h
  exact (List.mem_filter.mp h).1

/-- A finished run never reports the abort outcome: abort can only arise from
the two resolution phases, which precede `finish`. -/
theorem finish_fst_ne_aborted (input2 : List Row) (odoo : OdooState)
    (work2 : List WorkRow) (st2 : ResState) :
    (finish input2 odoo work2 st2).1 ≠ Outcome.aborted := by
  unfold finish
  split
  · intro hc; cases hc
  · split <;> (intro hc; cases hc)

/-- C1: on the concrete input where order A1 (rows two and three, the third a
blank-Name continuation row with quantity 7) is excluded as refunded, the run
still emits the continuation row in the order batch, attributed to the
unrelated order A2: the excluded category does not receive all of A1's rows and
the output contains a row of an excluded order. -/
theorem c1_run_eval :
    run [c1r1, c1r2, c1r3] c1odoo oAbort =
      (Outcome.completed,
       [Write.ordersUpload
          [⟨"A2", "Carol", "Shopify", "Carol", "2024-01-02 10:00:00", "1", "10", "X"⟩,
           ⟨"", "", "", "", "", "7", "30", "X"⟩],
        Write.contactsUpload
          [⟨"", "Carol", "", "", "", "", "", "", "0", "Contact"⟩]]) := by
  rfl

/-- C2 counterexample: order R1 is refunded and also already present in the
target order set, yet the classification marks it EXCLUDED (refunded); the
already-imported check runs after the exclusion filter and never sees it, so
ALREADY_IMPORTED does not take priority as the claim states. -/
theorem c2_counterexample :
    computeExcluded [c2r1] = Except.ok [("R1", ExclReason.refunded)] ∧
    computeAlreadyImported (filterOutOrders [c2r1] ["R1"]) ["R1"] = [] :=
  ⟨rfl, rfl⟩

/-- C2 amended: the exclusion checks take priority over the already-imported
check. An order whose first row has a positive refunded amount is classified
EXCLUDED (refunded) regardless of the target system's order set, and it never
appears in the already-imported set, which is computed from the
exclusion-filtered frame. -/
theorem c2_amended (rows : List Row) (odooOrders : List String)
    (excl : List (String × ExclReason)) (n : String) (r : Row)
    (h : computeExcluded rows = Except.ok excl)
    (h1 : firstRowOf rows n = some r) (h2 : isRefunded r = true)
    (h3 : n ∈ uniqueNames rows) :
    (n, ExclReason.refunded) ∈ excl ∧
    n ∉ computeAlreadyImported (filterOutOrders rows (excl.map Prod.fst)) odooOrders := by
  have hmem := classifyList_refunded_mem rows (uniqueNames rows) excl n r h h3 h1 h2
  refine ⟨hmem, fun hAI => ?_⟩
  have h4 := mem_computeAlreadyImported _ _ _ hAI
  have h5 := mem_uniqueNames_filterOut rows (excl.map Prod.fst) n h4
  exact h5 (List.mem_map.mpr ⟨(n, ExclReason.refunded), hmem, rfl⟩)

/-- Witness for `c2_amended` at the concrete refunded-and-already-imported order. -/
theorem c2_witness :
    ("R1", ExclReason.refunded) ∈ [("R1", ExclReason.refunded)] ∧
    "R1" ∉ computeAlreadyImported (filterOutOrders [c2r1] ["R1"]) ["R1"] :=
  c2_amended [c2r1] ["R1"] [("R1", ExclReason.refunded)] "R1" c2r1 rfl rfl rfl
    (by decide)

/-- C3: with order B1 consisting of a header row and a blank-Name continuation
row whose SKU stays unresolved (auto-skip mode), the whole order is removed from
the output, but the write-back to orders_export.csv contains only the header row
c3r1 — the continuation row is dropped from the UnresolvedBatch. -/
theorem c3_run_eval :
    run [c3r1, c3r2] c1odoo oAuto =
      (Outcome.emptyBatch,
       [Write.ordersExport [c3r1], Write.failedOrders ["B1"]]) := by
  rfl

/-- C4: a run that terminates with the abort outcome has performed no file
write at all; in particular orders_export.csv is untouched. -/
theorem c4_abort_no_writes (input : List Row) (odoo : OdooState) (o : Oracles)
    (ws : List Write) (h : run input odoo o = (Outcome.aborted, ws)) : ws = [] := by
  unfold run at h
  split at h
  · exact Outcome.noConfusion (congrArg Prod.fst h)
  · split at h
    · injection h with h1 h2
      exact h2.symm
    · split at h
      · injection h with h1 h2
        exact h2.symm
      · exact absurd (congrArg Prod.fst h) (finish_fst_ne_aborted _ _ _ _)

/-- Witness for `c4_abort_no_writes`: the operator aborts at the first prompt of
the concrete run on order D1 and nothing is written. -/
theorem c4_witness : (run [c4r1] c1odoo oAbort).2 = [] :=
  c4_abort_no_writes [c4r1] c1odoo oAbort (run [c4r1] c1odoo oAbort).2 (by rfl)

/-- C7: an order whose first row carries a NaN Financial Status cell makes the
classification loop raise (AttributeError on `nan.lower()`): the run crashes
instead of assigning the order a label. -/
theorem c7_crash_eval :
    run [c7r1] c1odoo oAbort = (Outcome.crashed, []) ∧
    classifyOrder [c7r1] "F1" = Except.error () :=
  ⟨rfl, rfl⟩

/-! Lemmas about the session cache and the first resolution sweep. -/

theorem cacheLookup_cons_self (cache : List (String × Option String))
    (nm : String) (x : Option String) :
    cacheLookup ((nm, x) :: cache) nm = some x := by
  unfold cacheLookup
  rw [List.find?_cons_of_pos]
  · rfl
  · simp

theorem cacheLookup_cons_preserve (cache : List (String × Option String))
    (nm k : String) (x v : Option String)
    (hmiss : cacheLookup cache nm = none) (h : cacheLookup cache k = some v) :
    cacheLookup ((nm, x) :: cache) k = some v := by
  by_cases hk : nm = k
  · subst hk
    rw [hmiss] at h
    cases h
  · unfold cacheLookup
    rw [List.find?_cons_of_neg]
    · exact h
    · simp [hk]

theorem skuLookup_spec (autoSkip : Bool) (dec : Nat → Decision)
    (itemName orderName currentSku : String) (st : ResState)
    (res : Option String) (st' : ResState)
    (h : skuLookup autoSkip dec itemName orderName currentSku st
          = Except.ok (res, st')) :
    st'.cache = (itemName, res) :: st.cache ∧
    st'.corrections.length
      = st.corrections.length + (match res with | some _ => 1 | none => 0) := by
  unfold skuLookup at h
  split at h
  · injection h with h
    injection h with h1 h2
    subst h1
    subst h2
    exact ⟨rfl, by simp⟩
  · split at h
    · injection h with h
      injection h with h1 h2
      subst h1
      subst h2
      exact ⟨rfl, by simp⟩
    · cases h
    · injection h with h
      injection h with h1 h2
      subst h1
      subst h2
      exact ⟨rfl, by simp⟩

theorem sweepRow_spec (skus : List String) (autoSkip : Bool) (dec : Nat → Decision)
    (r r' : WorkRow) (st st' : ResState)
    (h : sweepRow skus autoSkip dec r st = Except.ok (r', st')) :
    r'.itemName = r.itemName ∧
    st'.corrections.length
      = st.corrections.length + (if needy skus r then 1 else 0) ∧
    (∀ k v, cacheLookup st.cache k = some v → cacheLookup st'.cache k = some v) ∧
    (needy skus r = true →
      ∃ v, cacheLookup st'.cache r.itemName = some v ∧ r'.sku = applyVal v) := by
  unfold sweepRow at h
  split at h
  case isTrue hemp =>
    injection h with h
    injection h with h1 h2
    subst h1
    subst h2
    refine ⟨rfl, by simp [needy, hemp], fun k v hv => hv, ?_⟩
    intro hneedy
    rw [needy, hemp] at hneedy
    cases hneedy
  case isFalse hemp =>
    split at h
    case isTrue hvalid =>
      injection h with h
      injection h with h1 h2
      subst h1
      subst h2
      refine ⟨rfl, by simp [needy, hvalid], fun k v hv => hv, ?_⟩
      intro hneedy
      rw [needy, hvalid] at hneedy
      simp at hneedy
    case isFalse hvalid =>
      have hneedy : needy skus r = true := by
        rw [needy, Bool.not_eq_true] at *
        simp [Bool.not_eq_true'] at hemp hvalid
        simp [hemp, hvalid]
      split at h
      case h_1 c hcache =>
        injection h with h
        injection h with h1 h2
        subst h1
        subst h2
        refine ⟨rfl, by simp [hneedy], fun k v hv => hv, ?_⟩
        intro _
        exact ⟨some c, hcache, rfl⟩
      case h_2 hcache =>
        injection h with h
        injection h with h1 h2
        subst h1
        subst h2
        refine ⟨rfl, by simp [hneedy], fun k v hv => hv, ?_⟩
        intro _
        exact ⟨none, hcache, rfl⟩
      case h_3 hcache =>
        split at h
        case h_1 => cases h
        case h_2 c st1 hlook =>
          injection h with h
          injection h with h1 h2
          subst h1
          subst h2
          obtain ⟨hc, hlen⟩ := skuLookup_spec _ _ _ _ _ _ _ _ hlook
          refine ⟨rfl, by simp [hneedy, hlen], ?_, ?_⟩
          · intro k v hv
            rw [hc]
            exact cacheLookup_cons_preserve _ _ _ _ _ hcache hv
          · intro _
            refine ⟨some c, ?_, rfl⟩
            rw [hc]
            exact cacheLookup_cons_self _ _ _
        case h_3 st1 hlook =>
          injection h with h
          injection h with h1 h2
          subst h1
          subst h2
          obtain ⟨hc, hlen⟩ := skuLookup_spec _ _ _ _ _ _ _ _ hlook
          refine ⟨rfl, by simp [hneedy, hlen], ?_, ?_⟩
          · intro k v hv
            rw [hc]
            exact cacheLookup_cons_preserve _ _ _ _ _ hcache hv
          · intro _
            refine ⟨none, ?_, rfl⟩
            rw [hc]
            exact cacheLookup_cons_self _ _ _

theorem sweep_spec (skus : List String) (autoSkip : Bool) (dec : Nat → Decision)
    (rows : List WorkRow) (st : ResState) (rows' : List WorkRow) (st' : ResState)
    (h : sweep skus autoSkip dec rows st = Except.ok (rows', st')) :
    rows'.length = rows.length ∧
    st'.corrections.length
      = st.corrections.length + (rows.filter (needy skus)).length ∧
    (∀ k v, cacheLookup st.cache k = some v → cacheLookup st'.cache k = some v) ∧
    (∀ i r r', rows.get? i = some r → rows'.get? i = some r' →
      needy skus r = true →
      ∃ v, cacheLookup st'.cache r.itemName = some v ∧ r'.sku = applyVal v) := by
  induction rows generalizing st rows' st' with
  | nil =>
    unfold sweep at h
    injection h with h
    injection h with h1 h2
    subst h1
    subst h2
    refine ⟨rfl, by simp, fun k v hv => hv, ?_⟩
    intro i r r' hr
    simp at hr
  | cons a rest ih =>
    unfold sweep at h
    cases hrow : sweepRow skus autoSkip dec a st with
    | error e => rw [hrow] at h; cases h
    | ok p =>
      obtain ⟨a', st1⟩ := p
      rw [hrow] at h
      simp only at h
      cases hrest : sweep skus autoSkip dec rest st1 with
      | error e => rw [hrest] at h; cases h
      | ok q =>
        obtain ⟨rest', st2⟩ := q
        rw [hrest] at h
        simp only at h
        injection h with h
        injection h with h1 h2
        subst h1
        subst h2
        obtain ⟨hitem, hcnt1, hmono1, hval1⟩ := sweepRow_spec _ _ _ _ _ _ _ hrow
        obtain ⟨hlen, hcnt2, hmono2, hval2⟩ := ih st1 rest' st2 hrest
        refine ⟨by simp [hlen], ?_, fun k v hv => hmono2 k v (hmono1 k v hv), ?_⟩
        · rw [hcnt2, hcnt1]
          by_cases hna : needy skus a
          · simp [List.filter_cons, hna]
            omega
          · simp only [Bool.not_eq_true] at hna
            simp [List.filter_cons, hna]
        · intro i r r' hr hr' hneedy
          cases i with
          | zero =>
            simp only [List.get?] at hr hr'
            injection hr with hr
            injection hr' with hr'
            subst hr
            subst hr'
            obtain ⟨v, hv, happ⟩ := hval1 hneedy
            exact ⟨v, hmono2 _ _ hv, happ⟩
          | succ i =>
            simp only [List.get?] at hr hr'
            exact hval2 i r r' hr hr' hneedy

/-- C5 counterexample: both lines of order O1 share description D; the operator
skips at the first prompt (two skip Corrections recorded, one per line), then the
second-chance pass accepts S9, which is applied to both lines but recorded with a
single Correction: three records total, while the claim requires each of the two
second-chance applications to append its own record. -/
theorem c5_counterexample :
    run [c5r1, c5r2] c1odoo c5oracle =
      (Outcome.completed,
       [Write.ordersUpload
          [⟨"O1", "Hank", "Shopify", "Hank", "2024-03-01 08:00:00", "1", "10", "S9"⟩,
           ⟨"", "", "", "", "", "2", "10", "S9"⟩],
        Write.contactsUpload
          [⟨"", "Hank", "", "", "", "", "", "", "0", "Contact"⟩],
        Write.skuCorrections
          [⟨"O1", "D", "(missing)", "(skipped)",
            "SKIPPED - Order line will not be imported"⟩,
           ⟨"O1", "D", "(missing)", "(skipped)",
            "SKIPPED - Order line will not be imported"⟩,
           ⟨"O1", "D", "(missing)", "S9", "Update SKU in Shopify"⟩]]) := by
  rfl

/-- C5 amended: within the first resolution sweep, two lines sharing the same
product description always end with the same SKU resolution (the session cache
is consulted and populated consistently), and the sweep appends exactly one
Correction record per line that needed resolution; the second-chance pass,
however, records one Correction per accepted retry, not one per re-applied line. -/
theorem c5_amended (skus : List String) (autoSkip : Bool) (dec : Nat → Decision)
    (rows rows' : List WorkRow) (st st' : ResState) (i j : Nat)
    (r₁ r₂ s₁ s₂ : WorkRow)
    (h : sweep skus autoSkip dec rows st = Except.ok (rows', st'))
    (hi : rows.get? i = some r₁) (hj : rows.get? j = some r₂)
    (hi' : rows'.get? i = some s₁) (hj' : rows'.get? j = some s₂)
    (hn₁ : needy skus r₁ = true) (hn₂ : needy skus r₂ = true)
    (hshare : r₁.itemName = r₂.itemName) :
    s₁.sku = s₂.sku ∧
    st'.corrections.length
      = st.corrections.length + (rows.filter (needy skus)).length := by
  obtain ⟨-, hcnt, -, hval⟩ := sweep_spec _ _ _ _ _ _ _ h
  obtain ⟨v₁, hv₁, ha₁⟩ := hval i r₁ s₁ hi hi' hn₁
  obtain ⟨v₂, hv₂, ha₂⟩ := hval j r₂ s₂ hj hj' hn₂
  rw [hshare] at hv₁
  rw [hv₂] at hv₁
  injection hv₁ with hv
  subst hv
  exact ⟨by rw [ha₁, ha₂], hcnt⟩

/-- Witness for `c5_amended`: the concrete auto-skip sweep over the two lines of
description D, which both end skipped, with one Correction per line. -/
theorem c5_witness :
    (⟨"O1", "Hank", "t", "1", "10", "__SKIP__", "D"⟩ : WorkRow).sku
      = (⟨"O1", "Hank", "t", "2", "10", "__SKIP__", "D"⟩ : WorkRow).sku ∧
    st5.corrections.length
      = (⟨[], [], 0⟩ : ResState).corrections.length
        + ([w5a, w5b].filter (needy ["X"])).length :=
  c5_amended ["X"] true (fun _ => Decision.abort) [w5a, w5b]
    [⟨"O1", "Hank", "t", "1", "10", "__SKIP__", "D"⟩,
     ⟨"O1", "Hank", "t", "2", "10", "__SKIP__", "D"⟩]
    ⟨[], [], 0⟩ st5 0 1 w5a w5b
    ⟨"O1", "Hank", "t", "1", "10", "__SKIP__", "D"⟩
    ⟨"O1", "Hank", "t", "2", "10", "__SKIP__", "D"⟩
    (by rfl) rfl rfl rfl rfl rfl rfl rfl

/-! Lemmas about the record normalizer (forward fill). -/

theorem ffillAux_length (rows : List WorkRow) (pn pb pp : String) :
    (ffillAux rows pn pb pp).length = rows.length := by
  induction rows generalizing pn pb pp with
  | nil => rfl
  | cons a rest ih => simp [ffillAux, ih]

theorem ffillAux_spec (rows : List WorkRow) (pn pb pp : String) (i : Nat)
    (w w' : WorkRow) (hw : rows.get? i = some w)
    (hw' : (ffillAux rows pn pb pp).get? i = some w') :
    w'.name = lastNB pn ((rows.take (i+1)).map (fun r => r.name)) ∧
    w'.billingName = lastNB pb ((rows.take (i+1)).map (fun r => r.billingName)) ∧
    w'.paidAt = lastNB pp ((rows.take (i+1)).map (fun r => r.paidAt)) ∧
    w'.qty = w.qty ∧ w'.price = w.price ∧ w'.sku = w.sku ∧
    w'.itemName = w.itemName := by
  induction rows generalizing pn pb pp i with
  | nil => simp at hw
  | cons a rest ih =>
    cases i with
    | zero =>
      simp only [List.get?] at hw
      injection hw with hw
      subst hw
      unfold ffillAux at hw'
      simp only [List.get?] at hw'
      injection hw' with hw'
      subst hw'
      simp [lastNB]
    | succ i =>
      simp only [List.get?] at hw
      unfold ffillAux at hw'
      simp only [List.get?] at hw'
      obtain ⟨h1, h2, h3, h4, h5, h6, h7⟩ := ih _ _ _ i hw hw'
      simp only [List.take_succ_cons, List.map_cons, lastNB]
      exact ⟨h1, h2, h3, h4, h5, h6, h7⟩

/-- C6 counterexample: an input consisting of a single continuation row (blank
order identifier, preceding any header row) is processed without any error:
the run completes, emits the row with empty header fields, and no
MalformedInputError exists anywhere in the pipeline. -/
theorem c6_counterexample :
    run [c6r1] c1odoo oAbort =
      (Outcome.completed,
       [Write.ordersUpload [⟨"", "", "Shopify", "", "", "4", "9", "X"⟩],
        Write.contactsUpload []]) := by
  rfl

/-- C6 amended: the record normalizer is a total pure transform. It preserves
length and line-item fields, and fills each row's header fields (order
identifier, customer name, paid timestamp) with the most recent preceding
non-blank value; a continuation row that precedes any header row receives the
empty string instead of raising an error. -/
theorem c6_amended (rows : List WorkRow) (i : Nat) (w w' : WorkRow)
    (hw : rows.get? i = some w) (hw' : (ffill rows).get? i = some w') :
    (ffill rows).length = rows.length ∧
    w'.name = lastNB "" ((rows.take (i+1)).map (fun r => r.name)) ∧
    w'.billingName = lastNB "" ((rows.take (i+1)).map (fun r => r.billingName)) ∧
    w'.paidAt = lastNB "" ((rows.take (i+1)).map (fun r => r.paidAt)) ∧
    w'.qty = w.qty ∧ w'.price = w.price ∧ w'.sku = w.sku ∧
    w'.itemName = w.itemName := by
  obtain ⟨h1, h2, h3, h4, h5, h6, h7⟩ := ffillAux_spec rows "" "" "" i w w' hw hw'
  exact ⟨ffillAux_length rows "" "" "", h1, h2, h3, h4, h5, h6, h7⟩

/-- Witness for `c6_amended`: the continuation row of order B1 inherits B1's
header fields from the preceding header row. -/
theorem c6_witness :
    (ffill [toWorkRow c3r1, toWorkRow c3r2]).length
      = [toWorkRow c3r1, toWorkRow c3r2].length ∧
    (⟨"B1", "Frank", "2024-02-01 09:00:00 -0500", "3", "15", "", "Unknown"⟩
      : WorkRow).name
      = lastNB "" (([toWorkRow c3r1, toWorkRow c3r2].take 2).map (fun r => r.name)) ∧
    (⟨"B1", "Frank", "2024-02-01 09:00:00 -0500", "3", "15", "", "Unknown"⟩
      : WorkRow).billingName
      = lastNB "" (([toWorkRow c3r1, toWorkRow c3r2].take 2).map
          (fun r => r.billingName)) ∧
    (⟨"B1", "Frank", "2024-02-01 09:00:00 -0500", "3", "15", "", "Unknown"⟩
      : WorkRow).paidAt
      = lastNB "" (([toWorkRow c3r1, toWorkRow c3r2].take 2).map (fun r => r.paidAt)) ∧
    (⟨"B1", "Frank", "2024-02-01 09:00:00 -0500", "3", "15", "", "Unknown"⟩
      : WorkRow).qty = (toWorkRow c3r2).qty ∧
    (⟨"B1", "Frank", "2024-02-01 09:00:00 -0500", "3", "15", "", "Unknown"⟩
      : WorkRow).price = (toWorkRow c3r2).price ∧
    (⟨"B1", "Frank", "2024-02-01 09:00:00 -0500", "3", "15", "", "Unknown"⟩
      : WorkRow).sku = (toWorkRow c3r2).sku ∧
    (⟨"B1", "Frank", "2024-02-01 09:00:00 -0500", "3", "15", "", "Unknown"⟩
      : WorkRow).itemName = (toWorkRow c3r2).itemName :=
  c6_amended [toWorkRow c3r1, toWorkRow c3r2] 1 (toWorkRow c3r2)
    ⟨"B1", "Frank", "2024-02-01 09:00:00 -0500", "3", "15", "", "Unknown"⟩ rfl rfl

/-! Lemmas about the contact batch. -/

theorem map_filter_name_contacts (ex : List String) (l : List ContactRow) :
    (l.filter (fun c => !(ex.contains c.name))).map (fun c => c.name)
      = (l.map (fun c => c.name)).filter (fun n => !(ex.contains n)) := by
  induction l with
  | nil => rfl
  | cons a rest ih =>
    rw [List.filter_cons, List.map_cons, List.filter_cons]
    cases hb : (!(ex.contains a.name)) with
    | true => rw [if_pos rfl, if_pos rfl, List.map_cons, ih]
    | false => rw [if_neg Bool.false_ne_true, if_neg Bool.false_ne_true, ih]

theorem map_filter_nonblank_contacts (l : List ContactRow) :
    (l.filter (fun c => c.name != "")).map (fun c => c.name)
      = (l.map (fun c => c.name)).filter (fun s => s != "") := by
  induction l with
  | nil => rfl
  | cons a rest ih =>
    rw [List.filter_cons, List.map_cons, List.filter_cons]
    cases hb : (a.name != "") with
    | true => rw [if_pos rfl, if_pos rfl, List.map_cons, ih]
    | false => rw [if_neg Bool.false_ne_true, if_neg Bool.false_ne_true, ih]

theorem map_dedupByName (cs : List ContactRow) (seen : List String) :
    (dedupByName cs seen).map (fun c => c.name)
      = dedupFirstAux (cs.map (fun c => c.name)) seen := by
  induction cs generalizing seen with
  | nil => rfl
  | cons c rest ih =>
    simp only [dedupByName, List.map_cons, dedupFirstAux]
    by_cases hc : c.name ∈ seen
    · rw [if_pos hc, if_pos hc, ih]
    · rw [if_neg hc, if_neg hc, List.map_cons, ih]

/-- C8 counterexample: order O2 (Alice) resolves, order O3 (Bob) ends
unresolved and is written back for retry, yet Bob still appears in the emitted
contact batch: the batch is built from the exclusion-filtered input frame, which
still contains the unresolved orders' rows. -/
theorem c8_counterexample :
    run [c8r1, c8r2] c1odoo oAuto =
      (Outcome.completed,
       [Write.ordersExport [c8r2],
        Write.failedOrders ["O3"],
        Write.ordersUpload
          [⟨"O2", "Alice", "Shopify", "Alice", "2024-04-01 07:00:00", "1", "10", "X"⟩],
        Write.contactsUpload
          [⟨"", "Alice", "", "", "", "", "", "", "0", "Contact"⟩,
           ⟨"", "Bob", "", "", "", "", "", "", "0", "Contact"⟩],
        Write.skuCorrections
          [⟨"O3", "Bad", "(missing)", "(skipped)",
            "SKIPPED - Order line will not be imported"⟩]]) := by
  rfl

/-- C8 amended: the contact batch contains exactly one row per distinct
non-blank billing name among the rows surviving the exclusion and
already-imported filters — including the rows of unresolved orders —
deduplicated within the batch by exact name (first occurrence kept) and against
the target system's existing contact set by exact name, names already present
omitted; the emitted names are pairwise distinct. -/
theorem c8_amended (rows : List Row) (ex : List String) :
    (buildContacts rows ex).map (fun c => c.name)
      = (dedupFirst ((rows.map (fun r => orDefault r.billingName)).filter
          (fun s => s != ""))).filter (fun n => !(ex.contains n)) ∧
    ((buildContacts rows ex).map (fun c => c.name)).Nodup := by
  have hmain :
      (buildContacts rows ex).map (fun c => c.name)
        = (dedupFirst ((rows.map (fun r => orDefault r.billingName)).filter
            (fun s => s != ""))).filter (fun n => !(ex.contains n)) := by
    unfold buildContacts dedupFirst
    rw [map_filter_name_contacts]
    rw [map_dedupByName]
    rw [map_filter_nonblank_contacts]
    rw [List.map_map]
    rfl
  refine ⟨hmain, ?_⟩
  rw [hmain]
  unfold dedupFirst
  exact (nodup_dedupFirstAux _ []).filter _

/-! Lemmas about the finishing phase: empty batch and the final output. -/

theorem finish_emptyBatch_writes (input2 : List Row) (odoo : OdooState)
    (work2 : List WorkRow) (st2 : ResState) (ws : List Write)
    (h : finish input2 odoo work2 st2 = (Outcome.emptyBatch, ws)) :
    ws.filter isImportWrite = [] := by
  unfold finish at h
  split at h
  · injection h with h1 h2
    subst h2
    unfold writes1Of
    split
    · rfl
    · rfl
  · split at h <;> exact Outcome.noConfusion (congrArg Prod.fst h)

/-- C9 counterexample: when every order is excluded the run reaches the
empty-batch terminal state and exits with status 1 — the same status as the
user-abort failure path and distinct from the status 0 of a completed run —
rather than a status that distinguishes "nothing to do" from failure. -/
theorem c9_counterexample :
    run [c9r1] c1odoo oAbort = (Outcome.emptyBatch, []) ∧
    exitCode Outcome.emptyBatch = 1 ∧ exitCode Outcome.aborted = 1 ∧
    exitCode Outcome.completed = 0 :=
  ⟨rfl, rfl, rfl, rfl⟩

/-- C9 amended: when zero order lines remain after classification and
resolution, the run writes none of the three import artifacts (order batch,
contact batch, correction log) and terminates with exit status 1, the same
status the user-abort failure path uses, after printing the breakdown. -/
theorem c9_amended (input : List Row) (odoo : OdooState) (o : Oracles)
    (ws : List Write) (h : run input odoo o = (Outcome.emptyBatch, ws)) :
    ws.filter isImportWrite = [] ∧
    exitCode Outcome.emptyBatch = 1 ∧
    exitCode Outcome.emptyBatch = exitCode Outcome.aborted := by
  refine ⟨?_, rfl, rfl⟩
  unfold run at h
  split at h
  · exact Outcome.noConfusion (congrArg Prod.fst h)
  · split at h
    · exact Outcome.noConfusion (congrArg Prod.fst h)
    · split at h
      · exact Outcome.noConfusion (congrArg Prod.fst h)
      · exact finish_emptyBatch_writes _ _ _ _ _ h

/-- Witness for `c9_amended`: the empty-batch run on order B1 writes the retry
artifacts but none of the import artifacts. -/
theorem c9_witness :
    ((run [c3r1, c3r2] c1odoo oAuto).2).filter isImportWrite = [] ∧
    exitCode Outcome.emptyBatch = 1 ∧
    exitCode Outcome.emptyBatch = exitCode Outcome.aborted :=
  c9_amended [c3r1, c3r2] c1odoo oAuto (run [c3r1, c3r2] c1odoo oAuto).2 (by rfl)

theorem filter_eq_nil_of_false {α : Type} (p : α → Bool) (l : List α) :
    (∀ a ∈ l, p a = false) → l.filter p = [] := by
  induction l with
  | nil => intro h; rfl
  | cons a rest ih =>
    intro h
    rw [List.filter_cons, h a (List.mem_cons_self a rest)]
    simpa using ih (fun b hb => h b (List.mem_cons_of_mem _ hb))

theorem blankDupHeaders_product (l : List FinalRow) (seen : List String)
    (r' : FinalRow) (h : r' ∈ blankDupHeaders l seen) :
    ∃ r ∈ l, r'.product = r.product := by
  induction l generalizing seen with
  | nil => cases h
  | cons a rest ih =>
    unfold blankDupHeaders at h
    by_cases ha : a.orderRef ∈ seen
    · rw [if_pos ha] at h
      rcases List.mem_cons.mp h with rfl | h
      · exact ⟨a, List.mem_cons_self _ _, rfl⟩
      · obtain ⟨r, hr, hp⟩ := ih _ h
        exact ⟨r, List.mem_cons_of_mem _ hr, hp⟩
    · rw [if_neg ha] at h
      rcases List.mem_cons.mp h with heq | h
      · subst heq
        exact ⟨_, List.mem_cons_self _ _, rfl⟩
      · obtain ⟨r, hr, hp⟩ := ih _ h
        exact ⟨r, List.mem_cons_of_mem _ hr, hp⟩

theorem dfFinalOf_no_skip (work2 : List WorkRow) :
    (dfFinalOf (work4Of work2)).filter (fun r => r.product == "__SKIP__") = [] := by
  apply filter_eq_nil_of_false
  intro r hr
  unfold dfFinalOf at hr
  rw [List.mem_map] at hr
  obtain ⟨r1, hr1, rfl⟩ := hr
  obtain ⟨r2, hr2, hp⟩ := blankDupHeaders_product _ _ _ hr1
  rw [List.mem_map] at hr2
  obtain ⟨w, hw, rfl⟩ := hr2
  have hne := (List.mem_filter.mp hw).2
  have hprod : (cleanDate r1).product = w.sku := by
    show r1.product = w.sku
    rw [hp]
    rfl
  rw [hprod]
  simpa using hne

theorem not_ordersUpload_mem_writes1Of (input2 : List Row) (work2 : List WorkRow)
    (L : List FinalRow) : Write.ordersUpload L ∉ writes1Of input2 work2 := by
  unfold writes1Of
  split
  · intro hmem
    rcases List.mem_cons.mp hmem with h | h
    · cases h
    · rcases List.mem_cons.mp h with h | h
      · cases h
      · cases h
  · intro hmem
    cases hmem

theorem finish_completed_upload (input2 : List Row) (odoo : OdooState)
    (work2 : List WorkRow) (st2 : ResState) (ws : List Write) (L : List FinalRow)
    (h : finish input2 odoo work2 st2 = (Outcome.completed, ws))
    (hL : Write.ordersUpload L ∈ ws) :
    L.filter (fun r => r.product == "__SKIP__") = [] := by
  unfold finish at h
  split at h
  · exact Outcome.noConfusion (congrArg Prod.fst h)
  · split at h
    · injection h with h1 h2
      subst h2
      rcases List.mem_append.mp hL with hm | hm
      · exact absurd hm (not_ordersUpload_mem_writes1Of _ _ _)
      · rcases List.mem_cons.mp hm with hm | hm
        · injection hm with hm
          subst hm
          exact dfFinalOf_no_skip work2
        · rcases List.mem_cons.mp hm with hm | hm
          · cases hm
          · rcases List.mem_cons.mp hm with hm | hm
            · cases hm
            · cases hm
    · injection h with h1 h2
      subst h2
      rcases List.mem_append.mp hL with hm | hm
      · exact absurd hm (not_ordersUpload_mem_writes1Of _ _ _)
      · rcases List.mem_cons.mp hm with hm | hm
        · injection hm with hm
          subst hm
          exact dfFinalOf_no_skip work2
        · rcases List.mem_cons.mp hm with hm | hm
          · cases hm
          · cases hm

/-- C10: the emitted order batch never contains the internal skip sentinel in
its product column: every row of every ordersUpload write of a completed run has
a product different from the sentinel, by whole-order removal followed by the
final per-row filter. -/
theorem c10_no_skip_in_output (input : List Row) (odoo : OdooState) (o : Oracles)
    (ws : List Write) (L : List FinalRow)
    (h : run input odoo o = (Outcome.completed, ws))
    (hL : Write.ordersUpload L ∈ ws) :
    L.filter (fun r => r.product == "__SKIP__") = [] := by
  unfold run at h
  split at h
  · exact Outcome.noConfusion (congrArg Prod.fst h)
  · split at h
    · exact Outcome.noConfusion (congrArg Prod.fst h)
    · split at h
      · exact Outcome.noConfusion (congrArg Prod.fst h)
      · exact finish_completed_upload _ _ _ _ _ _ h hL

/-- Witness for `c10_no_skip_in_output` at the concrete completed run on order
O2, whose emitted batch holds one row with product X. -/
theorem c10_witness :
    ([⟨"O2", "Alice", "Shopify", "Alice", "2024-04-01 07:00:00", "1", "10", "X"⟩]
      : List FinalRow).filter (fun r => r.product == "__SKIP__") = [] :=
  c10_no_skip_in_output [c8r1] c1odoo oAbort
    [Write.ordersUpload
       [⟨"O2", "Alice", "Shopify", "Alice", "2024-04-01 07:00:00", "1", "10", "X"⟩],
     Write.contactsUpload [⟨"", "Alice", "", "", "", "", "", "", "0", "Contact"⟩]]
    [⟨"O2", "Alice", "Shopify", "Alice", "2024-04-01 07:00:00", "1", "10", "X"⟩]
    (by rfl) (List.mem_cons_self _ _)

end OrderFlow
